import Mathlib

/-!
Verification development for the Sol Mountain ski-weather build pipeline
(`src/build.py`).  The Python source is shallowly embedded: pure helpers
become Lean functions on exact rationals and strings, JSON payloads become
structures with `Option` fields for keys that may be absent, and the
sequencing of `main` becomes an explicit function from fetched inputs to a
run outcome.  Python's `round` (banker's rounding) and `%` on floats are
modelled exactly on `ℚ`.
-/

namespace SkiWeather

attribute [local semireducible] Rat.mul Rat.inv Rat.add Rat.sub Rat.ofScientific

/-- Python `round` (banker's rounding) on exact rationals: nearest integer,
ties go to the even integer. -/
def pyround (q : ℚ) : ℤ :=
  let f : ℤ := ⌊q⌋
  if q - f < 1/2 then f
  else if (1:ℚ)/2 < q - f then f + 1
  else if f % 2 = 0 then f else f + 1

/-- Python `round(x, 1)`: rounding to one decimal digit, ties to even. -/
def pyround1 (q : ℚ) : ℚ := (pyround (q * 10) : ℚ) / 10

/-- Python `%` with a positive modulus on rationals: result lies in `[0, m)`. -/
def pymod (q m : ℚ) : ℚ := q - m * ⌊q / m⌋

/-- Python truthiness-aware `x or dflt` for an optional string: `None` and the
empty string both fall through to the default. -/
def pyOrStr (x : Option String) (dflt : String) : String :=
  match x with
  | none => dflt
  | some s => if s = "" then dflt else s

/-- Python `str.startswith`. -/
def pyStartsWith (s p : String) : Bool := p.data.isPrefixOf s.data

/-- Characters strictly before the first occurrence of `c`. -/
def takeUntilChar (c : Char) : List Char → List Char
  | [] => []
  | x :: xs => if x = c then [] else x :: takeUntilChar c xs

/-- Characters strictly after the first occurrence of `c`. -/
def dropThruChar (c : Char) : List Char → List Char
  | [] => []
  | x :: xs => if x = c then xs else dropThruChar c xs

/-- Split a character list on a separator character. -/
def splitOnChar (c : Char) : List Char → List (List Char)
  | [] => [[]]
  | x :: xs =>
    if x = c then [] :: splitOnChar c xs
    else
      match splitOnChar c xs with
      | [] => [[x]]
      | g :: gs => (x :: g) :: gs

/-- Decimal digit characters to a natural number (Python `int` on a digit
string, e.g. `int("06") = 6`). -/
def digitsToNat (l : List Char) : ℕ :=
  l.foldl (fun a c => a * 10 + (c.toNat - 48)) 0

/-- The hour field of an ISO timestamp such as `"2026-03-01T06:00"`:
`int(t.split("T")[1].split(":")[0])` in the source. -/
def hourOfTime (t : String) : ℕ :=
  digitsToNat (takeUntilChar ':' (dropThruChar 'T' t.data))

/-- Days since 0000-03-01 in the proleptic Gregorian calendar (civil-date
algorithm, restricted to CE dates, so natural-number arithmetic is exact). -/
def days_from_civil (y m d : ℕ) : ℕ :=
  let y := if m ≤ 2 then y - 1 else y
  let era := y / 400
  let yoe := y - era * 400
  let mp := (m + 9) % 12
  let doy := (153 * mp + 2) / 5 + d - 1
  let doe := yoe * 365 + yoe / 4 - yoe / 100 + doy
  era * 146097 + doe

/-- Inverse of `days_from_civil`. -/
def civil_from_days (z : ℕ) : ℕ × ℕ × ℕ :=
  let era := z / 146097
  let doe := z % 146097
  let yoe := (doe - doe / 1460 + doe / 36524 - doe / 146096) / 365
  let y := yoe + era * 400
  let doy := doe - (365 * yoe + yoe / 4 - yoe / 100)
  let mp := (5 * doy + 2) / 153
  let d := doy - (153 * mp + 2) / 5 + 1
  let m := if mp < 10 then mp + 3 else mp - 9
  (if m ≤ 2 then y + 1 else y, m, d)

/-- Parse an ISO `YYYY-MM-DD` date string into (year, month, day). -/
def parse_iso_date (s : String) : ℕ × ℕ × ℕ :=
  match (splitOnChar '-' s.data).map digitsToNat with
  | [y, m, d] => (y, m, d)
  | _ => (0, 0, 0)

/-- Zero-pad a number below 100 to two digits. -/
def pad2 (n : ℕ) : String := if n < 10 then "0" ++ toString n else toString n

/-- Format (year, month, day) as `YYYY-MM-DD` (Python `%Y-%m-%d`). -/
def fmt_iso_date : ℕ × ℕ × ℕ → String
  | (y, m, d) => toString y ++ "-" ++ pad2 m ++ "-" ++ pad2 d

/-- Serial day number of an ISO date string. -/
def date_to_days (s : String) : ℕ :=
  days_from_civil (parse_iso_date s).1 (parse_iso_date s).2.1 (parse_iso_date s).2.2

/-- Python `datetime.weekday()`: Monday = 0 … Sunday = 6.  Day 0 of
`days_from_civil` (0000-03-01) was a Wednesday, whose Monday-index is 2. -/
def py_weekday (s : String) : ℕ :=
  (date_to_days s + 2) % 7

/-- Largest element of a rational list (`max` in Python); 0 on the empty list,
which the source never reaches. -/
def listMaxQ : List ℚ → ℚ
  | [] => 0
  | x :: xs => xs.foldl max x

/-- Smallest element of a rational list (`min` in Python); 0 on the empty
list, which the source never reaches. -/
def listMinQ : List ℚ → ℚ
  | [] => 0
  | x :: xs => xs.foldl min x

/-- Largest element of an integer list; 0 on the empty list. -/
def listMaxZ : List ℤ → ℤ
  | [] => 0
  | x :: xs => xs.foldl max x

/-- Smallest element of an integer list; 0 on the empty list. -/
def listMinZ : List ℤ → ℤ
  | [] => 0
  | x :: xs => xs.foldl min x

/-- Python `repr` of a one-decimal float, as produced by `round(x, 1)`
(`12.0` prints as `"12.0"`, `12.5` as `"12.5"`). -/
def fmtTenths (q : ℚ) : String :=
  let k : ℤ := ⌊q * 10⌋
  let n := k.natAbs
  (if k < 0 then "-" else "") ++ toString (n / 10) ++ "." ++ toString (n % 10)

/-- Python `str.title()` restricted to the single lowercase words it is
applied to in the source (the danger-level names). -/
def pyTitle (s : String) : String := s.capitalize

-- ─── Configuration tables (src/build.py lines 30-60) ────────────────────────

def DAY_NAMES : List String :=
  ["Monday", "Tuesday", "Wednesday", "Thursday", "Friday", "Saturday", "Sunday"]

def SHORT_DAYS : List String := ["Mon", "Tue", "Wed", "Thu", "Fri", "Sat", "Sun"]

def MONTHS : List String :=
  ["Jan", "Feb", "Mar", "Apr", "May", "Jun", "Jul", "Aug", "Sep", "Oct", "Nov", "Dec"]

def trip_start : String := "2026-03-01"

def trip_end : String := "2026-03-07"

def mountain_elev : ℚ := 1900

/-- The WMO weather-code table: code ↦ (description, icon). -/
def WMO : List (ℤ × String × String) :=
  [(0, "Clear sky", "☀️"), (1, "Mainly clear", "🌤️"),
   (2, "Partly cloudy", "⛅"), (3, "Overcast", "☁️"),
   (45, "Fog", "🌫️"), (48, "Rime fog", "🌫️"),
   (51, "Light drizzle", "🌧️"), (53, "Drizzle", "🌧️"),
   (55, "Heavy drizzle", "🌧️"),
   (56, "Freezing drizzle", "🌧️"), (57, "Heavy freezing drizzle", "🌧️"),
   (61, "Light rain", "🌧️"), (63, "Rain", "🌧️"),
   (65, "Heavy rain", "🌧️"),
   (66, "Freezing rain", "🌧️"), (67, "Heavy freezing rain", "🌧️"),
   (71, "Light snow", "🌨️"), (73, "Snow", "🌨️"),
   (75, "Heavy snow", "🌨️"), (77, "Snow grains", "🌨️"),
   (80, "Light showers", "🌦️"), (81, "Showers", "🌧️"),
   (82, "Heavy showers", "🌧️"),
   (85, "Light snow showers", "🌨️"), (86, "Heavy snow showers", "🌨️"),
   (95, "Thunderstorm", "⛈️"), (96, "T-storm + hail", "⛈️"),
   (99, "Severe t-storm", "⛈️")]

-- ─── Utilities (src/build.py lines 65-99) ───────────────────────────────────

/-- `deg_to_compass`: bucket a wind direction into 8 compass points with
`dirs[round(deg % 360 / 45) % 8]`; `None` becomes `"--"`. -/
def deg_to_compass (deg : Option ℚ) : String :=
  match deg with
  | none => "--"
  | some d =>
    let dirs := ["N", "NE", "E", "SE", "S", "SW", "W", "NW"]
    dirs.getD ((pyround (pymod d 360 / 45) % 8).toNat) ""

/-- `wmo_info`: `WMO.get(code, WMO[3])` — total lookup defaulting to the
`Overcast` entry (code 3); an absent (`None`) code also hits the default. -/
def wmo_info (code : Option ℤ) : String × String :=
  (code.bind fun c => WMO.lookup c).getD ((WMO.lookup 3).getD ("", ""))

/-- `freezing_level`: `round(elev_m + (temp_c / 6.5) * 1000)`. -/
def freezing_level (temp_c elev_m : ℚ) : ℤ :=
  pyround (elev_m + temp_c / 6.5 * 1000)

/-- `fmt_date`: `"Sun, Mar 1"`-style formatting of an ISO date string. -/
def fmt_date (date_str : String) : String :=
  let md := parse_iso_date date_str
  SHORT_DAYS.getD (py_weekday date_str) "" ++ ", " ++
    MONTHS.getD (md.2.1 - 1) "" ++ " " ++ toString md.2.2

/-- `day_of_week`: full weekday name of an ISO date string. -/
def day_of_week (date_str : String) : String :=
  DAY_NAMES.getD (py_weekday date_str) ""

/-- `trip_dates`: every date from `trip_start` to `trip_end` inclusive. -/
def trip_dates : List String :=
  let a := date_to_days trip_start
  let b := date_to_days trip_end
  (List.range (b + 1 - a)).map fun i => fmt_iso_date (civil_from_days (a + i))

-- ─── Data model ─────────────────────────────────────────────────────────────
-- JSON payloads are embedded as structures.  The provider's index-aligned
-- field arrays (`hourly["time"][i]`, `hourly["temperature_2m"][i]`, …) are
-- represented as one list of per-timestamp rows; a JSON `null` leaf is an
-- `Option` that is `none`.

/-- One row of the Open-Meteo hourly series (one timestamp across the
index-aligned hourly arrays). -/
structure HourlyEntry where
  time : String
  temperature_2m : ℚ
  snowfall : Option ℚ
  windspeed_10m : Option ℚ
  winddirection_10m : Option ℚ
  weathercode : ℤ
  cloudcover : Option ℚ
deriving DecidableEq

/-- One row of the Open-Meteo daily series (one date across the index-aligned
daily arrays). -/
structure DailyEntry where
  time : String
  temperature_2m_max : ℚ
  temperature_2m_min : ℚ
  precipitation_sum : ℚ
  snowfall_sum : ℚ
  windspeed_10m_max : ℚ
  winddirection_10m_dominant : Option ℚ
  weathercode : ℤ
deriving DecidableEq

/-- An Open-Meteo response: `{"daily": …, "hourly": …}`. -/
structure Forecast where
  daily : List DailyEntry
  hourly : List HourlyEntry
deriving DecidableEq

/-- The aggregate returned by `extract_hourly_period` for a non-empty hour
range. -/
structure PeriodSummary where
  temp_min : ℤ
  temp_max : ℤ
  temp_avg : ℤ
  snow_total : ℚ
  wind_max : ℤ
  wind_dir : String
  weather_code : ℤ
  cloud_avg : ℤ
deriving DecidableEq, Inhabited

/-- The `mtn` dict built by `process_day` from the mountain daily series. -/
structure MtnStats where
  high : ℤ
  low : ℤ
  precip : ℚ
  snow : ℚ
  wind_max : ℤ
  wind_dir : String
  weather_code : ℤ
deriving DecidableEq, Inhabited

/-- The `val` dict built by `process_day` from the valley daily series. -/
structure ValStats where
  high : ℤ
  low : ℤ
  snow : ℚ
  weather_code : ℤ
deriving DecidableEq, Inhabited

/-- The canonical per-day record returned by `process_day` (and cached in
`previous["days"]`).  Its fields are exactly the keys of the dict built at
src/build.py lines 286-297; in particular it carries no narrative fields. -/
structure DayForecast where
  date : String
  date_fmt : String
  day_of_week : String
  icon : String
  weather_desc : String
  mountain : MtnStats
  valley : Option ValStats
  am : Option PeriodSummary
  pm : Option PeriodSummary
  night : Option PeriodSummary
  avg_cloud : ℤ
  freezing_level : ℤ
deriving DecidableEq, Inhabited

-- ─── Data processing (src/build.py lines 218-297) ───────────────────────────

/-- The row filter of `extract_hourly_period`: timestamp starts with the date
string and its hour lies in `[start_h, end_h)`. -/
def hourlyMatches (date_str : String) (start_h end_h : ℕ) (e : HourlyEntry) : Bool :=
  pyStartsWith e.time date_str &&
    decide (start_h ≤ hourOfTime e.time) && decide (hourOfTime e.time < end_h)

/-- `extract_hourly_period`: aggregate the hourly rows of one date whose hour
lies in `[start_h, end_h)`; `None` when no row matches.  `x or 0` coalescing
of null leaves becomes `Option.getD 0`; `sorted(codes, reverse=True)[0]` is
the maximum code; `winds.index(max(winds))` is the first index attaining the
maximum wind. -/
def extract_hourly_period (hourly : List HourlyEntry) (date_str : String)
    (start_h end_h : ℕ) : Option PeriodSummary :=
  let rows := hourly.filter (hourlyMatches date_str start_h end_h)
  let temps := rows.map (fun e => e.temperature_2m)
  let snows := rows.map (fun e => e.snowfall.getD 0)
  let winds := rows.map (fun e => e.windspeed_10m.getD 0)
  let wind_dirs := rows.map (fun e => e.winddirection_10m)
  let codes := rows.map (fun e => e.weathercode)
  let clouds := rows.map (fun e => e.cloudcover.getD 0)
  if temps = [] then none
  else
    let max_wind_idx := winds.findIdx (fun w => decide (w = listMaxQ winds))
    some {
      temp_min := pyround (listMinQ temps)
      temp_max := pyround (listMaxQ temps)
      temp_avg := pyround (temps.sum / (temps.length : ℚ))
      snow_total := pyround1 snows.sum
      wind_max := pyround (listMaxQ winds)
      wind_dir := deg_to_compass ((wind_dirs.getD max_wind_idx none))
      weather_code := listMaxZ codes
      cloud_avg := pyround (clouds.sum / (clouds.length : ℚ)) }

/-- `process_day`: build the canonical `DayForecast` for one trip date, or
`None` when the date is absent from the mountain daily series.  `list.index`
on the `time` arrays becomes `List.find?` on the date field; the valley leg's
`try/except` becomes the `Option.map` over its lookup. -/
def process_day (date_str : String) (mtn_data val_data : Forecast) :
    Option DayForecast :=
  match mtn_data.daily.find? (fun e => e.time = date_str) with
  | none => none
  | some d =>
    let mtn : MtnStats := {
      high := pyround d.temperature_2m_max
      low := pyround d.temperature_2m_min
      precip := d.precipitation_sum
      snow := pyround1 d.snowfall_sum
      wind_max := pyround d.windspeed_10m_max
      wind_dir := deg_to_compass d.winddirection_10m_dominant
      weather_code := d.weathercode }
    let val : Option ValStats :=
      (val_data.daily.find? (fun e => e.time = date_str)).map (fun vd => {
        high := pyround vd.temperature_2m_max
        low := pyround vd.temperature_2m_min
        snow := pyround1 vd.snowfall_sum
        weather_code := vd.weathercode })
    let am := extract_hourly_period mtn_data.hourly date_str 6 12
    let pm := extract_hourly_period mtn_data.hourly date_str 12 18
    let night := extract_hourly_period mtn_data.hourly date_str 18 24
    let all_day := extract_hourly_period mtn_data.hourly date_str 6 24
    let avg_cloud := (all_day.map (fun p => p.cloud_avg)).getD 50
    let fl := freezing_level (mtn.high : ℚ) mountain_elev
    let di := wmo_info (some mtn.weather_code)
    some {
      date := date_str
      date_fmt := fmt_date date_str
      day_of_week := day_of_week date_str
      icon := di.2
      weather_desc := di.1
      mountain := mtn
      valley := val
      am := am, pm := pm, night := night
      avg_cloud := avg_cloud
      freezing_level := fl }

-- ─── Avalanche bulletin model ───────────────────────────────────────────────

/-- One elevation band's `{"rating": {"value": …, "display": …}}` object;
either leaf may be absent. -/
structure BandRating where
  value : Option String
  display : Option String
deriving DecidableEq

/-- One element of the bulletin's `dangerRatings` array.  `dateValue` is
`dr["date"]["value"]` with the source's `""` default for absent keys; the
three bands are `dr["ratings"]["alp"/"tln"/"btl"]`, each possibly absent. -/
structure DangerRating where
  dateValue : String
  alp : Option BandRating
  tln : Option BandRating
  btl : Option BandRating
deriving DecidableEq

/-- The bulletin's `report` object (only the parts the pipeline reads). -/
structure Report where
  dangerRatings : List DangerRating
deriving DecidableEq

/-- The bulletin's `product` object. -/
structure AvyProduct where
  report : Option Report
deriving DecidableEq

/-- The value returned by `fetch_avalanche_canada`: `{"product": …}` (the
`region` entry is not read by the functions modelled here).  The whole
structure is `Option`-wrapped at use sites because `safe_fetch` yields `None`
on failure. -/
structure AvyData where
  product : Option AvyProduct
deriving DecidableEq

/-- The report reached from an optional `avy_data`, as `generate_html` lines
485-486 compute it (`avy_data.get("product") if avy_data else None`, then
`product.get("report") if product else None`).  `gen_avy_notes` line 345
reaches the same value through `avy_data.get("product", {}).get("report")`,
which assumes `product` is not `None` when `avy_data` is present. -/
def reportOf (avy : Option AvyData) : Option Report :=
  (avy.bind (fun a => a.product)).bind (fun p => p.report)

/-- Band display label with the `"?"` default of
`…get("rating", {}).get("display", "?")`. -/
def bandDisplay (b : Option BandRating) : String :=
  (b.bind (fun r => r.display)).getD "?"

/-- Band rating value with the `""` default of
`…get("rating", {}).get("value", "")`. -/
def bandValue (b : Option BandRating) : String :=
  (b.bind (fun r => r.value)).getD ""

-- ─── Derived analytics (src/build.py lines 300-389) ─────────────────────────

/-- `gen_summary`: weather description, plus snow amount when positive, plus
winds above 20 km/h, comma-joined. -/
def gen_summary (day : DayForecast) : String :=
  let parts := [day.weather_desc]
  let parts := if 0 < day.mountain.snow
    then parts ++ [fmtTenths day.mountain.snow ++ "cm snow"] else parts
  let parts := if 20 < day.mountain.wind_max
    then parts ++ ["winds " ++ toString day.mountain.wind_max ++ " km/h"] else parts
  String.intercalate ", " parts

/-- `gen_backcountry`: threshold-driven sentence list, space-joined. -/
def gen_backcountry (day : DayForecast) : String :=
  let cloud := day.avg_cloud
  let snow := day.mountain.snow
  let wind := day.mountain.wind_max
  let high := day.mountain.high
  let notes := [if cloud < 30 then
      "Excellent visibility for alpine objectives. Good day for bigger terrain."
    else if 80 < cloud then
      "Flat light likely in alpine. Favour treed terrain and lower-angle runs."
    else "Variable visibility through the day."]
  let notes := notes ++ [if 15 < snow then
      "Heavy snowfall (" ++ fmtTenths snow ++
        "cm) — deep powder potential but limited vis. Stick to familiar zones."
    else if 5 < snow then
      "Fresh snow (" ++ fmtTenths snow ++ "cm) for good turns in sheltered terrain."
    else if 0 < snow then
      "Light snow (" ++ fmtTenths snow ++ "cm). Existing surfaces refreshed."
    else "No new snow. Look for wind-sheltered aspects where soft snow remains."]
  let notes := if 25 < wind then
      notes ++ ["Strong winds (" ++ toString wind ++ " km/h " ++ day.mountain.wind_dir ++
        ") — significant wind effect at ridgeline."]
    else if 15 < wind then
      notes ++ ["Moderate winds (" ++ toString wind ++ " km/h " ++ day.mountain.wind_dir ++
        ") — some wind loading on lee features."]
    else notes
  let notes := if 2 < high then
      notes ++ ["Warm temps — watch for wet loose on steep south-facing terrain in afternoon. Start early."]
    else notes
  String.intercalate " " notes

/-- The danger-rating sentence `gen_avy_notes` emits for a matching
`dangerRatings` entry. -/
def ratingSentence (dr : DangerRating) : String :=
  "Avalanche Canada danger: Alpine " ++ bandDisplay dr.alp ++
    ", Treeline " ++ bandDisplay dr.tln ++
    ", Below treeline " ++ bandDisplay dr.btl ++ "."

/-- The storm-slab warning for snowfall above 10 cm. -/
def stormMajor : String :=
  "Storm slab building with significant new snow. Natural avalanches likely on steep terrain."

/-- The lesser storm-slab warning for snowfall above 3 cm. -/
def stormMinor : String :=
  "New storm slab forming with fresh snow loading."

/-- The wind-slab warning, citing the day's wind direction. -/
def windSlabNote (day : DayForecast) : String :=
  "Wind slab likely on lee aspects with " ++ day.mountain.wind_dir ++ " winds."

/-- The fixed persistent-weak-layer advisory. -/
def persistentAdvisory : String :=
  "Persistent weak layers (Feb 13 surface hoar, Jan 28 crust) remain in the snowpack. Assess stability as you travel."

/-- The `for dr in report["dangerRatings"]: … break` loop of `gen_avy_notes`:
the sentence of the first entry whose date value starts with the day's date,
as a zero- or one-element list. -/
def ratingNotes (date : String) : List DangerRating → List String
  | [] => []
  | dr :: rest =>
    if pyStartsWith dr.dateValue date then [ratingSentence dr]
    else ratingNotes date rest

/-- The note list assembled by `gen_avy_notes` before joining. -/
def gen_avy_notes_list (day : DayForecast) (report : Option Report) : List String :=
  let notes := match report with
    | none => []
    | some r =>
      if r.dangerRatings = [] then []
      else ratingNotes day.date r.dangerRatings
  let notes := if 10 < day.mountain.snow then notes ++ [stormMajor]
    else if 3 < day.mountain.snow then notes ++ [stormMinor]
    else notes
  let notes := if 15 < day.mountain.wind_max then notes ++ [windSlabNote day] else notes
  notes ++ [persistentAdvisory]

/-- `gen_avy_notes`: the space-joined avalanche note of one day. -/
def gen_avy_notes (day : DayForecast) (avy : Option AvyData) : String :=
  String.intercalate " " (gen_avy_notes_list day (reportOf avy))

/-- The week's total mountain snowfall summed by `gen_week_outlook`. -/
def total_snow (days : List DayForecast) : ℚ :=
  (days.map (fun d => d.mountain.snow)).sum

/-- The `best` list of `gen_week_outlook`: formatted dates of the days with
average cloud below 50 and mountain max wind below 15. -/
def best_days (days : List DayForecast) : List String :=
  (days.filter (fun d => decide (d.avg_cloud < 50) && decide (d.mountain.wind_max < 15))).map
    (fun d => d.date_fmt)

/-- The first, unconditional clause of the week outlook: clear-day and
snow-day counts. -/
def cloudCountsClause (days : List DayForecast) : String :=
  let clear_days := (days.filter (fun d => decide (d.avg_cloud < 40))).length
  let snow_days := (days.filter (fun d => decide (1 < d.mountain.snow))).length
  "<strong>Week outlook:</strong> " ++ toString clear_days ++
    " clear day" ++ (if clear_days ≠ 1 then "s" else "") ++ ", " ++
    toString snow_days ++ " day" ++ (if snow_days ≠ 1 then "s" else "") ++
    " with snowfall."

/-- The second, unconditional clause of the week outlook: the week's
mountain temperature range. -/
def tempsRangeClause (days : List DayForecast) : String :=
  "Mountain temps range " ++ toString (listMinZ (days.map (fun d => d.mountain.low))) ++
    " to " ++ toString (listMaxZ (days.map (fun d => d.mountain.high))) ++ "°C."

/-- The total-snowfall clause of the week outlook. -/
def snowTotalClause (days : List DayForecast) : String :=
  "Total expected snowfall: ~" ++ toString (pyround (total_snow days)) ++ "cm."

/-- The best-days clause of the week outlook. -/
def bestDaysClause (days : List DayForecast) : String :=
  "Best days for big objectives: " ++ String.intercalate ", " (best_days days) ++ "."

/-- The `parts` list assembled by `gen_week_outlook` before joining: the two
unconditional clauses, the total-snowfall clause appended only when the total
is positive, and the best-days clause appended only when the list is
non-empty. -/
def gen_week_outlook_parts (days : List DayForecast) : List String :=
  let parts := [cloudCountsClause days]
  let parts := parts ++ [tempsRangeClause days]
  let parts := if 0 < total_snow days then parts ++ [snowTotalClause days] else parts
  if best_days days ≠ [] then parts ++ [bestDaysClause days] else parts

/-- `gen_week_outlook`: the space-joined week-outlook line. -/
def gen_week_outlook (days : List DayForecast) : String :=
  String.intercalate " " (gen_week_outlook_parts days)

-- ─── Avalanche banner (src/build.py lines 429-451) ──────────────────────────

/-- The banner dict of `avy_banner`.  The placeholder's `"level": "?"` is
modelled as `level = none`; a numeric level is `some n`. -/
structure Banner where
  level : Option ℕ
  label : String
  color : String
deriving DecidableEq

/-- The `levels` ordinal map of `avy_banner`, with the `.get(val, 0)`
default. -/
def levelsMap (v : String) : ℕ :=
  if v = "low" then 1
  else if v = "moderate" then 2
  else if v = "considerable" then 3
  else if v = "high" then 4
  else if v = "extreme" then 5
  else 0

/-- The `colors` map of `avy_banner` as an association list. -/
def colorPairs : List (String × String) :=
  [("low", "var(--green)"), ("moderate", "var(--danger-moderate)"),
   ("considerable", "var(--danger-considerable)"),
   ("high", "var(--danger-high)"), ("extreme", "var(--danger-high)")]

/-- One step of the `for elev in ("alp", "tln", "btl")` maximum scan:
strictly greater ordinals replace the running maximum, so the first band
attaining the maximum is kept. -/
def bannerStep (acc : ℕ × String) (band : Option BandRating) : ℕ × String :=
  let v := bandValue band
  if acc.1 < levelsMap v then (levelsMap v, v) else acc

/-- `avy_banner`: the week-level danger banner.  With no report or an empty
`dangerRatings` it is the fixed `Check avalanche.ca` placeholder; otherwise
the maximum ordinal over the first entry's three bands gives the level, the
colour is looked up from the maximising band's value, and the label is the
alpine band's display (`or`-falling back to `"<level> - <Name>"`). -/
def avy_banner (avy : Option AvyData) : Banner :=
  match reportOf avy with
  | none => { level := none, label := "Check avalanche.ca", color := "var(--text-muted)" }
  | some r =>
    match r.dangerRatings with
    | [] => { level := none, label := "Check avalanche.ca", color := "var(--text-muted)" }
    | dr0 :: _ =>
      let mx := [dr0.alp, dr0.tln, dr0.btl].foldl bannerStep (0, "low")
      let fb := toString mx.1 ++ " - " ++ pyTitle mx.2
      { level := some mx.1
        label := pyOrStr (dr0.alp.bind (fun b => b.display)) fb
        color := (colorPairs.lookup mx.2).getD "var(--text-muted)" }

-- ─── Card rendering (src/build.py lines 467-532) ────────────────────────────

/-- The per-period JSON blob of `period_to_json`. -/
structure PeriodJson where
  temp : String
  wind : String
  snow : String
  sky : String
deriving DecidableEq

/-- `period_to_json`: `None` stays `None`; otherwise the display strings. -/
def period_to_json (p : Option PeriodSummary) : Option PeriodJson :=
  p.map (fun p => {
    temp := toString p.temp_avg ++ "°C"
    wind := toString p.wind_max ++ " km/h " ++ p.wind_dir
    snow := fmtTenths p.snow_total ++ "cm"
    sky := (wmo_info (some p.weather_code)).1 })

/-- One day's card dict as assembled in `generate_html` (lines 513-532);
the `valley` text and `metar` entries depend only on the out-of-scope
observation and text-forecast adapters and are omitted here. -/
structure Card where
  date : String
  dayOfWeek : String
  icon : String
  mtHigh : String
  mtLow : String
  valHigh : String
  valLow : String
  snow : String
  wind : String
  summary : String
  freezing : String
  am : Option PeriodJson
  pm : Option PeriodJson
  night : Option PeriodJson
  backcountry : String
  avyNote : String
deriving DecidableEq

/-- Build one day's card: every card invokes the derived-analytics functions
(`gen_summary`, `gen_backcountry`, `gen_avy_notes`) on the day record at
render time. -/
def buildCard (d : DayForecast) (avy : Option AvyData) : Card :=
  { date := d.date_fmt
    dayOfWeek := d.day_of_week
    icon := d.icon
    mtHigh := toString d.mountain.high
    mtLow := toString d.mountain.low
    valHigh := (d.valley.map (fun v => toString v.high)).getD "--"
    valLow := (d.valley.map (fun v => toString v.low)).getD "--"
    snow := if 0 < d.mountain.snow then fmtTenths d.mountain.snow ++ "cm" else "None"
    wind := if d.mountain.wind_max < 5 then "Calm"
      else toString d.mountain.wind_max ++ " km/h " ++ d.mountain.wind_dir
    summary := gen_summary d
    freezing := toString d.freezing_level ++ "m"
    am := period_to_json d.am
    pm := period_to_json d.pm
    night := period_to_json d.night
    backcountry := gen_backcountry d
    avyNote := gen_avy_notes d avy }

-- ─── Main pipeline (src/build.py lines 829-879) ─────────────────────────────

/-- Replace-or-append assignment on an association list, modelling
`previous["days"][date_str] = day`. -/
def assocSet (m : List (String × DayForecast)) (k : String) (v : DayForecast) :
    List (String × DayForecast) :=
  match m with
  | [] => [(k, v)]
  | (k0, v0) :: rest =>
    if k0 = k then (k, v) :: rest else (k0, v0) :: assocSet rest k v

/-- One trip date's contribution to the `days` list in `main`'s loop: the
fresh record when computable, else the cached record for that exact date,
else nothing (the date is dropped). -/
def produceDay (mtn_data val_data : Forecast) (prev : List (String × DayForecast))
    (date_str : String) : Option DayForecast :=
  match process_day date_str mtn_data val_data with
  | some day => some day
  | none => prev.lookup date_str

/-- The ordered `days` list `main` accumulates over `trip_dates`. -/
def mainDaysList (mtn_data val_data : Forecast)
    (prev : List (String × DayForecast)) : List DayForecast :=
  trip_dates.filterMap (produceDay mtn_data val_data prev)

/-- The `previous["days"]` mapping after `main`'s loop: each freshly computed
date is written back; cache-fallback dates keep their existing entries. -/
def mainCache (mtn_data val_data : Forecast)
    (prev : List (String × DayForecast)) : List (String × DayForecast) :=
  trip_dates.foldl (fun acc date_str =>
    match process_day date_str mtn_data val_data with
    | some day => assocSet acc date_str day
    | none => acc) prev

/-- The observable outcome of one `main` run: an exit code when the run
halts early (`sys.exit(1)`), and the artifacts actually written (the cache
file's `days` mapping, and the day cards embedded in the generated page).
`none` artifacts mean the corresponding file was never written. -/
structure RunOutput where
  exitCode : Option ℕ
  savedDays : Option (List (String × DayForecast))
  htmlCards : Option (List Card)
deriving DecidableEq

/-- `main`, as a function of the fetched inputs (each `none` when its
`safe_fetch` failed) and the pre-existing cache.  Mirrors the source order:
fatal exit when the mountain fetch failed; valley falls back to mountain
data; per-date loop with cache fallback; fatal exit when no days were
produced; otherwise the cache file and then the page are written. -/
def mainModel (mtnOpt valOpt : Option Forecast)
    (prev : List (String × DayForecast)) (avy : Option AvyData) : RunOutput :=
  match mtnOpt with
  | none => { exitCode := some 1, savedDays := none, htmlCards := none }
  | some mtn_data =>
    let val_data := valOpt.getD mtn_data
    let days := mainDaysList mtn_data val_data prev
    if days = [] then { exitCode := some 1, savedDays := none, htmlCards := none }
    else
      { exitCode := none
        savedDays := some (mainCache mtn_data val_data prev)
        htmlCards := some (days.map (fun d => buildCard d avy)) }

-- ─── Sanity checks of the embedding on concrete values ──────────────────────

example : py_weekday "2026-03-01" = 6 := by decide
example : fmt_date "2026-03-01" = "Sun, Mar 1" := by decide
example : trip_dates =
    ["2026-03-01", "2026-03-02", "2026-03-03", "2026-03-04",
     "2026-03-05", "2026-03-06", "2026-03-07"] := by decide
example : deg_to_compass (some 359) = "N" := by decide
example : deg_to_compass (some 44) = "NE" := by decide
example : freezing_level 5 1900 = 2669 := by decide
example : hourOfTime "2026-03-01T06:00" = 6 := by decide
example : fmtTenths (25/2) = "12.5" := by decide
example : fmtTenths 12 = "12.0" := by decide
example : pyround (1/2) = 0 := by decide
example : pyround (3/2) = 2 := by decide
example : pyround (-1/2) = 0 := by decide
example : extract_hourly_period
    [{ time := "2026-03-01T06:00", temperature_2m := -4, snowfall := some (1/2),
       windspeed_10m := some 10, winddirection_10m := some 90,
       weathercode := 73, cloudcover := some 80 },
     { time := "2026-03-01T07:00", temperature_2m := -2, snowfall := none,
       windspeed_10m := some 20, winddirection_10m := some 180,
       weathercode := 3, cloudcover := none }] "2026-03-01" 6 12 =
    some { temp_min := -4, temp_max := -2, temp_avg := -3, snow_total := 1/2,
           wind_max := 20, wind_dir := "S", weather_code := 73, cloud_avg := 40 } := by
  decide
example : (process_day "2026-03-01"
    { daily := [{ time := "2026-03-01", temperature_2m_max := 5,
                  temperature_2m_min := -3, precipitation_sum := 2,
                  snowfall_sum := 3/2, windspeed_10m_max := 12,
                  winddirection_10m_dominant := some 270, weathercode := 71 }],
      hourly := [] }
    { daily := [], hourly := [] }).map (fun d => (d.freezing_level, d.avg_cloud, d.date_fmt)) =
    some (2669, 50, "Sun, Mar 1") := by decide

-- ─── Concrete inputs used by witnesses and counterexamples ──────────────────

/-- A one-day mountain forecast with a 5 °C high used as a concrete witness
input. -/
def wForecast : Forecast :=
  { daily := [{ time := "2026-03-01", temperature_2m_max := 5,
                temperature_2m_min := -3, precipitation_sum := 2,
                snowfall_sum := 3/2, windspeed_10m_max := 12,
                winddirection_10m_dominant := some 270, weathercode := 71 }],
    hourly := [] }

/-- The day record `process_day` produces from `wForecast`. -/
def wDay : DayForecast := (process_day "2026-03-01" wForecast wForecast).getD default

/-- A forecast with empty daily and hourly series. -/
def emptyForecast : Forecast := { daily := [], hourly := [] }

/-- The maximum ordinal across the three elevation bands of a danger-rating
entry, under the low=1 … extreme=5 mapping (unrecognised values count 0).
Spec-side formulation for the banner's level. -/
def maxBandOrdinal (dr : DangerRating) : ℕ :=
  max (levelsMap (bandValue dr.alp))
    (max (levelsMap (bandValue dr.tln)) (levelsMap (bandValue dr.btl)))

/-- The rating value of the first band (alpine, treeline, below-treeline
order) attaining `maxBandOrdinal`, or `"low"` when no band has a recognised
value.  Spec-side formulation of the band the banner's colour is drawn
from. -/
def maxBandValue (dr : DangerRating) : String :=
  let m := maxBandOrdinal dr
  if m = 0 then "low"
  else if levelsMap (bandValue dr.alp) = m then bandValue dr.alp
  else if levelsMap (bandValue dr.tln) = m then bandValue dr.tln
  else bandValue dr.btl

/-- A bulletin whose first danger rating has alpine = low (display
`"1 - Low"`) and treeline = high (display `"4 - High"`): the maximum band is
the treeline one. -/
def cxBannerAvy : Option AvyData :=
  some { product := some { report := some { dangerRatings :=
    [{ dateValue := "2026-03-01T00:00:00",
       alp := some { value := some "low", display := some "1 - Low" },
       tln := some { value := some "high", display := some "4 - High" },
       btl := none }] } } }

/-- An earlier run's mountain forecast covering only 2026-03-02. -/
def oldForecast : Forecast :=
  { daily := [{ time := "2026-03-02", temperature_2m_max := -1,
                temperature_2m_min := -8, precipitation_sum := 4,
                snowfall_sum := 6, windspeed_10m_max := 22,
                winddirection_10m_dominant := some 300, weathercode := 75 }],
    hourly := [] }

/-- The current run's mountain forecast, covering only 2026-03-01 (so
2026-03-02 can no longer be computed fresh). -/
def curForecast : Forecast :=
  { daily := [{ time := "2026-03-01", temperature_2m_max := 2,
                temperature_2m_min := -4, precipitation_sum := 0,
                snowfall_sum := 0, windspeed_10m_max := 8,
                winddirection_10m_dominant := some 90, weathercode := 2 }],
    hourly := [] }

/-- The record the earlier run computed and cached for 2026-03-02. -/
def cachedDay : DayForecast :=
  (process_day "2026-03-02" oldForecast oldForecast).getD default

/-- A cache holding the earlier run's record for 2026-03-02. -/
def prevCache : List (String × DayForecast) := [("2026-03-02", cachedDay)]

/-- A current bulletin with a danger rating dated 2026-03-02. -/
def avyMar2 : Option AvyData :=
  some { product := some { report := some { dangerRatings :=
    [{ dateValue := "2026-03-02T00:00:00",
       alp := some { value := some "considerable", display := some "3 - Considerable" },
       tln := some { value := some "moderate", display := some "2 - Moderate" },
       btl := some { value := some "low", display := some "1 - Low" } }] } } }

/-- A clear day whose mountain max wind is exactly 15 km/h and whose snowfall
is zero: it sits on the best-days wind boundary. -/
def day15 : DayForecast :=
  { date := "2026-03-03", date_fmt := "Tue, Mar 3", day_of_week := "Tuesday",
    icon := "☀️", weather_desc := "Clear sky",
    mountain := { high := -2, low := -9, precip := 0, snow := 0,
                  wind_max := 15, wind_dir := "N", weather_code := 0 },
    valley := none, am := none, pm := none, night := none,
    avg_cloud := 10, freezing_level := 1592 }

/-- A mountain forecast whose only hourly entry for 2026-03-01 sits at hour 3,
outside the `[6,24)` full-day window. -/
def hour3Forecast : Forecast :=
  { daily := [{ time := "2026-03-01", temperature_2m_max := 0,
                temperature_2m_min := -5, precipitation_sum := 0,
                snowfall_sum := 0, windspeed_10m_max := 10,
                winddirection_10m_dominant := some 180, weathercode := 3 }],
    hourly := [{ time := "2026-03-01T03:00", temperature_2m := -4,
                 snowfall := some 0, windspeed_10m := some 5,
                 winddirection_10m := some 100, weathercode := 1,
                 cloudcover := some 80 }] }

-- ─── Helper lemmas ──────────────────────────────────────────────────────────

/-- Shifting the argument by the modulus leaves `pymod` unchanged. -/
theorem pymod_add_self (d : ℚ) : pymod (d + 360) 360 = pymod d 360 := by
  unfold pymod
  have h : (d + 360) / 360 = d / 360 + 1 := by ring
  rw [h, Int.floor_add_one]
  push_cast
  ring

/-- `extract_hourly_period` returns `none` exactly when no hourly row matches
the date and hour range. -/
theorem extract_hourly_period_eq_none_iff (hourly : List HourlyEntry)
    (date_str : String) (start_h end_h : ℕ) :
    extract_hourly_period hourly date_str start_h end_h = none ↔
      hourly.filter (hourlyMatches date_str start_h end_h) = [] := by
  unfold extract_hourly_period
  by_cases h : (hourly.filter (hourlyMatches date_str start_h end_h)).map
      (fun e => e.temperature_2m) = []
  · have h2 : hourly.filter (hourlyMatches date_str start_h end_h) = [] :=
      List.map_eq_nil_iff.mp h
    simp [h, h2]
  · have h2 : hourly.filter (hourlyMatches date_str start_h end_h) ≠ [] :=
      fun hh => h (by rw [hh]; rfl)
    simp [h, h2]

-- ─── Claim theorems ─────────────────────────────────────────────────────────

/-- C4: compass bucketing by `round(deg/45) mod 8` is periodic mod 360;
359° and 1° both bucket to `"N"`, and 44° and 46° both lie inside the
`"NE"` bucket, whose boundaries with the neighbouring buckets sit at
22.5° and 67.5°. -/
theorem compass_bucketing_periodic :
    (∀ d : ℚ, deg_to_compass (some (d + 360)) = deg_to_compass (some d))
    ∧ deg_to_compass (some 359) = "N"
    ∧ deg_to_compass (some 1) = "N"
    ∧ deg_to_compass (some 44) = "NE"
    ∧ deg_to_compass (some 46) = "NE"
    ∧ deg_to_compass (some 22) = "N"
    ∧ deg_to_compass (some 23) = "NE"
    ∧ deg_to_compass (some 67) = "NE"
    ∧ deg_to_compass (some 68) = "E" := by
  refine ⟨fun d => ?_, by decide, by decide, by decide, by decide,
    by decide, by decide, by decide, by decide⟩
  simp only [deg_to_compass, pymod_add_self]

/-- C5: every `DayForecast` built by `process_day` satisfies
`freezing_level = freezing_level(mountain.high, 1900)`, i.e.
`round(elev + high/6.5*1000)`; in particular high = 5 °C at 1900 m gives
2669 m. -/
theorem freezing_level_invariant :
    (∀ (date_str : String) (mtn_data val_data : Forecast) (d : DayForecast),
      process_day date_str mtn_data val_data = some d →
      d.freezing_level = freezing_level (d.mountain.high : ℚ) mountain_elev)
    ∧ freezing_level 5 1900 = 2669 := by
  constructor
  · intro date_str mtn_data val_data d h
    unfold process_day at h
    cases hf : mtn_data.daily.find? (fun e => e.time = date_str) with
    | none => rw [hf] at h; exact absurd h (by simp)
    | some de =>
      rw [hf] at h
      simp only [Option.some.injEq] at h
      subst h
      rfl
  · decide

/-- C7: a period summary is entirely absent (`None`) exactly when zero hourly
entries match the date and hour range — never a zero-filled record; in
particular a date with no entries in `[6,12)` has an absent morning
summary. -/
theorem period_summary_absent_iff_no_hours :
    ∀ (hourly : List HourlyEntry) (date_str : String) (start_h end_h : ℕ),
      (extract_hourly_period hourly date_str start_h end_h = none ↔
        hourly.filter (hourlyMatches date_str start_h end_h) = []) :=
  fun hourly date_str start_h end_h =>
    extract_hourly_period_eq_none_iff hourly date_str start_h end_h

/-- C10: `wmo_info` is total — every code (including an absent one) yields a
(description, icon) pair; codes present in the WMO table map to their entry,
and any other code silently maps to the `Overcast` entry. -/
theorem wmo_info_total_overcast_default :
    (∀ code : Option ℤ,
      (code.bind (fun c => WMO.lookup c) = none → wmo_info code = ("Overcast", "☁️"))
      ∧ ∀ v, code.bind (fun c => WMO.lookup c) = some v → wmo_info code = v)
    ∧ wmo_info none = ("Overcast", "☁️") := by
  refine ⟨fun code => ⟨fun h => ?_, fun v h => ?_⟩, by decide⟩
  · unfold wmo_info
    rw [h]
    decide
  · unfold wmo_info
    rw [h]
    rfl

/-- Witness for C10: code 42 is not in the WMO table and maps to the Overcast
entry; code 73 is in the table and maps to its own entry. -/
theorem wmo_info_total_overcast_default_witness :
    wmo_info (some 42) = ("Overcast", "☁️") ∧ wmo_info (some 73) = ("Snow", "🌨️") :=
  ⟨(wmo_info_total_overcast_default.1 (some 42)).1 (by decide),
   (wmo_info_total_overcast_default.1 (some 73)).2 ("Snow", "🌨️") (by decide)⟩

/-- Witness for C5: on a concrete forecast with a 5 °C daily high at the
1900 m mountain elevation, the produced day record's freezing level is
`freezing_level(high, 1900) = 2669`. -/
theorem freezing_level_invariant_witness :
    process_day "2026-03-01" wForecast wForecast = some wDay
    ∧ wDay.freezing_level = freezing_level (wDay.mountain.high : ℚ) mountain_elev
    ∧ wDay.freezing_level = 2669 :=
  ⟨by decide,
   freezing_level_invariant.1 "2026-03-01" wForecast wForecast wDay (by decide),
   by decide⟩

/-- C6: the week outlook's "best days" list contains exactly the formatted
dates of the days with average cloud below 50 and mountain max wind strictly
below 15 (wind exactly 15 is excluded); when the total snowfall is zero the
parts list holds only the other clauses (the snow-total clause is omitted),
and when the best-days list is empty only the other clauses (the best-days
clause is omitted). -/
theorem week_outlook_best_days :
    ∀ days : List DayForecast,
      (∀ s, s ∈ best_days days ↔ ∃ d, d ∈ days ∧ d.date_fmt = s ∧
          d.avg_cloud < 50 ∧ d.mountain.wind_max < 15)
      ∧ (total_snow days = 0 → gen_week_outlook_parts days =
          [cloudCountsClause days, tempsRangeClause days] ++
            (if best_days days = [] then [] else [bestDaysClause days]))
      ∧ (best_days days = [] → gen_week_outlook_parts days =
          [cloudCountsClause days, tempsRangeClause days] ++
            (if 0 < total_snow days then [snowTotalClause days] else [])) := by
  intro days
  refine ⟨?_, ?_, ?_⟩
  · intro s
    simp only [best_days, List.mem_map, List.mem_filter, Bool.and_eq_true,
      decide_eq_true_eq]
    constructor
    · rintro ⟨d, ⟨hd, hc, hw⟩, hfmt⟩
      exact ⟨d, hd, hfmt, hc, hw⟩
    · rintro ⟨d, hd, hfmt, hc, hw⟩
      exact ⟨d, ⟨hd, hc, hw⟩, hfmt⟩
  · intro hs
    unfold gen_week_outlook_parts
    by_cases hb : best_days days = [] <;> simp [hs, hb]
  · intro hb
    unfold gen_week_outlook_parts
    by_cases hs : 0 < total_snow days <;> simp [hs, hb]

/-- Witness for C6: a clear day with wind exactly 15 km/h and zero snowfall
is excluded from the best-days list, so on this one-day week both
conditional clauses are omitted and the outlook is the two mandatory
clauses. -/
theorem week_outlook_best_days_witness :
    best_days [day15] = []
    ∧ gen_week_outlook_parts [day15] =
        [cloudCountsClause [day15], tempsRangeClause [day15]] ++
          (if 0 < total_snow [day15] then [snowTotalClause [day15]] else []) :=
  ⟨by decide, (week_outlook_best_days [day15]).2.2 (by decide)⟩

/-- `ratingNotes` is the sentence of the first danger rating whose date value
starts with the day's date, when one exists. -/
theorem ratingNotes_eq_find (date : String) :
    ∀ l : List DangerRating,
      ratingNotes date l =
        ((l.find? (fun dr => pyStartsWith dr.dateValue date)).map ratingSentence).toList
  | [] => rfl
  | dr :: rest => by
    unfold ratingNotes
    by_cases h : pyStartsWith dr.dateValue date
    · simp [List.find?, h]
    · simp only [List.find?]
      rw [Bool.not_eq_true] at h
      simp [h, ratingNotes_eq_find date rest]

/-- C8: the avalanche note's clauses appear in the fixed order — the rating
sentence of the first bulletin danger rating whose date string begins with
the day's date (absent when none matches), then the storm-slab warning
(strong above 10 cm of snowfall, the lesser form above 3 cm), then the
wind-slab warning above 15 km/h citing the day's wind direction, and finally
the persistent-weak-layer advisory, which is always the last clause,
whatever the inputs. -/
theorem avy_note_clause_order :
    ∀ (day : DayForecast) (report : Option Report),
      gen_avy_notes_list day report =
        ((report.bind (fun r => r.dangerRatings.find?
            (fun dr => pyStartsWith dr.dateValue day.date))).map ratingSentence).toList
        ++ (if 10 < day.mountain.snow then [stormMajor]
            else if 3 < day.mountain.snow then [stormMinor] else [])
        ++ (if 15 < day.mountain.wind_max then [windSlabNote day] else [])
        ++ [persistentAdvisory]
      ∧ (gen_avy_notes_list day report).getLast? = some persistentAdvisory := by
  intro day report
  have hmain : gen_avy_notes_list day report =
      ((report.bind (fun r => r.dangerRatings.find?
          (fun dr => pyStartsWith dr.dateValue day.date))).map ratingSentence).toList
      ++ (if 10 < day.mountain.snow then [stormMajor]
          else if 3 < day.mountain.snow then [stormMinor] else [])
      ++ (if 15 < day.mountain.wind_max then [windSlabNote day] else [])
      ++ [persistentAdvisory] := by
    unfold gen_avy_notes_list
    have hr : (match report with
        | none => []
        | some r => if r.dangerRatings = [] then [] else ratingNotes day.date r.dangerRatings) =
        ((report.bind (fun r => r.dangerRatings.find?
            (fun dr => pyStartsWith dr.dateValue day.date))).map ratingSentence).toList := by
      cases report with
      | none => rfl
      | some r =>
        by_cases h : r.dangerRatings = []
        · simp [h]
        · simp [h, ratingNotes_eq_find]
    rw [hr]
    by_cases h10 : 10 < day.mountain.snow
    · by_cases h15 : 15 < day.mountain.wind_max <;> simp [h10, h15]
    · by_cases h3 : 3 < day.mountain.snow
      · by_cases h15 : 15 < day.mountain.wind_max <;> simp [h10, h3, h15]
      · by_cases h15 : 15 < day.mountain.wind_max <;> simp [h10, h3, h15]
  refine ⟨hmain, ?_⟩
  rw [hmain]
  rw [show ((report.bind (fun r => r.dangerRatings.find?
      (fun dr => pyStartsWith dr.dateValue day.date))).map ratingSentence).toList
      ++ (if 10 < day.mountain.snow then [stormMajor]
          else if 3 < day.mountain.snow then [stormMinor] else [])
      ++ (if 15 < day.mountain.wind_max then [windSlabNote day] else [])
      ++ [persistentAdvisory] =
      (((report.bind (fun r => r.dangerRatings.find?
          (fun dr => pyStartsWith dr.dateValue day.date))).map ratingSentence).toList
      ++ (if 10 < day.mountain.snow then [stormMajor]
          else if 3 < day.mountain.snow then [stormMinor] else [])
      ++ (if 15 < day.mountain.wind_max then [windSlabNote day] else []))
      ++ [persistentAdvisory] by simp [List.append_assoc]]
  exact List.getLast?_concat _

/-- C9: when the mountain model fetch fails entirely, or when no trip date
can be produced even after cache fallback, the run exits with code 1 and
writes neither the cache file nor the page. -/
theorem fatal_exit_no_artifacts :
    (∀ (valOpt : Option Forecast) (prev : List (String × DayForecast)) (avy : Option AvyData),
      mainModel none valOpt prev avy =
        { exitCode := some 1, savedDays := none, htmlCards := none })
    ∧ ∀ (mtn_data : Forecast) (valOpt : Option Forecast)
        (prev : List (String × DayForecast)) (avy : Option AvyData),
        mainDaysList mtn_data (valOpt.getD mtn_data) prev = [] →
        mainModel (some mtn_data) valOpt prev avy =
          { exitCode := some 1, savedDays := none, htmlCards := none } := by
  constructor
  · intro valOpt prev avy
    rfl
  · intro mtn_data valOpt prev avy h
    unfold mainModel
    simp [h]

/-- Witness for C9: an empty mountain forecast covers no trip date, so with
an empty cache the run exits with code 1 and produces no artifacts. -/
theorem fatal_exit_no_artifacts_witness :
    mainModel (some emptyForecast) none [] none =
      { exitCode := some 1, savedDays := none, htmlCards := none } :=
  fatal_exit_no_artifacts.2 emptyForecast none [] none (by decide)

/-- The three-band maximum scan of `avy_banner` computes the maximum ordinal
and keeps the value of the first band attaining it. -/
theorem bannerStep_fold (dr : DangerRating) :
    [dr.alp, dr.tln, dr.btl].foldl bannerStep (0, "low") =
      (maxBandOrdinal dr, maxBandValue dr) := by
  simp only [List.foldl, bannerStep, maxBandOrdinal, maxBandValue, Nat.max_def]
  split_ifs <;> simp_all <;> omega

/-- C1 (amended): with no report or no danger ratings the banner is the fixed
`Check avalanche.ca` placeholder; otherwise its level is the maximum ordinal
across the first rating's three bands (low=1 … extreme=5) and its colour
class is looked up from that maximising band's rating value — but its display
label is the alpine band's display (falling back to `"<level> - <Name>"` when
the alpine display is absent or empty), not the maximum band's. -/
theorem avy_banner_characterisation :
    ∀ avy : Option AvyData,
      ((reportOf avy).bind (fun r => r.dangerRatings.head?) = none →
        avy_banner avy =
          { level := none, label := "Check avalanche.ca", color := "var(--text-muted)" })
      ∧ ∀ dr0, (reportOf avy).bind (fun r => r.dangerRatings.head?) = some dr0 →
          avy_banner avy =
            { level := some (maxBandOrdinal dr0)
              label := pyOrStr (dr0.alp.bind (fun b => b.display))
                (toString (maxBandOrdinal dr0) ++ " - " ++ pyTitle (maxBandValue dr0))
              color := (colorPairs.lookup (maxBandValue dr0)).getD "var(--text-muted)" } := by
  intro avy
  cases hr : reportOf avy with
  | none =>
    refine ⟨fun _ => ?_, fun dr0 h => ?_⟩
    · unfold avy_banner
      rw [hr]
    · simp at h
  | some r =>
    cases hd : r.dangerRatings with
    | nil =>
      refine ⟨fun _ => ?_, fun dr0 h => ?_⟩
      · unfold avy_banner
        rw [hr]
        simp [hd]
      · simp [hd] at h
    | cons dr0' rest =>
      refine ⟨fun h => ?_, fun dr0 h => ?_⟩
      · simp [hd] at h
      · simp only [Option.some_bind, hd, List.head?_cons, Option.some.injEq] at h
        subst h
        unfold avy_banner
        rw [hr]
        have hfold := bannerStep_fold dr0'
        simp only [List.foldl] at hfold
        simp [hd, hfold]

/-- Counterexample for C1: the maximum band of `cxBannerAvy`'s first rating
is the treeline band (value `"high"`, ordinal 4, display `"4 - High"`); the
banner takes its level and colour from that band but its label from the
alpine band's display `"1 - Low"`, not from the maximum band's display. -/
theorem banner_label_not_max_band_counterexample :
    avy_banner cxBannerAvy =
      { level := some 4, label := "1 - Low", color := "var(--danger-high)" }
    ∧ ((reportOf cxBannerAvy).bind (fun r => r.dangerRatings.head?)).map
        (fun dr => bandDisplay dr.tln) = some "4 - High"
    ∧ (avy_banner cxBannerAvy).label ≠ "4 - High" := by decide

/-- Witness for C1 (amended): on `avyMar2` the alpine band attains the
maximum (considerable, ordinal 3), so level, colour and label all follow it;
and an absent bulletin yields the placeholder. -/
theorem avy_banner_characterisation_witness :
    avy_banner avyMar2 =
      { level := some 3, label := "3 - Considerable",
        color := "var(--danger-considerable)" }
    ∧ avy_banner none =
      { level := none, label := "Check avalanche.ca", color := "var(--text-muted)" } :=
  ⟨by
    rw [(avy_banner_characterisation avyMar2).2
      { dateValue := "2026-03-02T00:00:00"
        alp := some { value := some "considerable", display := some "3 - Considerable" }
        tln := some { value := some "moderate", display := some "2 - Moderate" }
        btl := some { value := some "low", display := some "1 - Low" } } (by decide)]
    decide,
   (avy_banner_characterisation none).1 (by decide)⟩

/-- C2 (amended): a date absent from the current daily series whose record
exists in the cache is reused verbatim in the output sequence; but the cached
record carries no narrative fields — the summary, backcountry note and
avalanche note of its card are recomputed at render time by the analytics
functions, from the record and the *current* bulletin. -/
theorem cache_fallback_verbatim_renarrated :
    ∀ (mtn_data val_data : Forecast) (prev : List (String × DayForecast))
      (avy : Option AvyData) (date_str : String) (rec : DayForecast),
      process_day date_str mtn_data val_data = none →
      prev.lookup date_str = some rec →
      produceDay mtn_data val_data prev date_str = some rec
      ∧ (buildCard rec avy).summary = gen_summary rec
      ∧ (buildCard rec avy).backcountry = gen_backcountry rec
      ∧ (buildCard rec avy).avyNote = gen_avy_notes rec avy := by
  intro mtn_data val_data prev avy date_str rec h1 h2
  refine ⟨?_, rfl, rfl, rfl⟩
  unfold produceDay
  rw [h1]
  exact h2

/-- Counterexample for C2: 2026-03-02 is not computable fresh from
`curForecast` and is served verbatim from the cache, yet the avalanche notes
of the rendered cards change when the current bulletin changes — the
narrative is regenerated for the cached date at render time, so it cannot
have been carried inside the cached record. -/
theorem cached_narratives_regenerated_counterexample :
    process_day "2026-03-02" curForecast curForecast = none
    ∧ produceDay curForecast curForecast prevCache "2026-03-02" = some cachedDay
    ∧ ((mainModel (some curForecast) none prevCache avyMar2).savedDays.getD []).lookup
        "2026-03-02" = some cachedDay
    ∧ ((mainModel (some curForecast) none prevCache avyMar2).htmlCards.getD []).map
        (fun c => c.avyNote)
      ≠ ((mainModel (some curForecast) none prevCache none).htmlCards.getD []).map
        (fun c => c.avyNote) := by decide

/-- Witness for C2 (amended): the cached 2026-03-02 record is reused
verbatim, and its card's narrative fields are the analytics functions applied
to it at render time. -/
theorem cache_fallback_verbatim_renarrated_witness :
    produceDay curForecast curForecast prevCache "2026-03-02" = some cachedDay
    ∧ (buildCard cachedDay avyMar2).summary = gen_summary cachedDay
    ∧ (buildCard cachedDay avyMar2).backcountry = gen_backcountry cachedDay
    ∧ (buildCard cachedDay avyMar2).avyNote = gen_avy_notes cachedDay avyMar2 :=
  cache_fallback_verbatim_renarrated curForecast curForecast prevCache avyMar2
    "2026-03-02" cachedDay (by decide) (by decide)

/-- C3 (amended): `avg_cloud_pct` is the full-day `[6,24)` period summary's
average cloud, with the default 50 used exactly when the full-day summary is
absent — that is, exactly when no hourly entry of the date falls in `[6,24)`
(not only when the date has no hourly data at all). -/
theorem avg_cloud_full_day_default :
    ∀ (date_str : String) (mtn_data val_data : Forecast) (d : DayForecast),
      process_day date_str mtn_data val_data = some d →
      d.avg_cloud = ((extract_hourly_period mtn_data.hourly date_str 6 24).map
          (fun p => p.cloud_avg)).getD 50
      ∧ (extract_hourly_period mtn_data.hourly date_str 6 24 = none ↔
          mtn_data.hourly.filter (hourlyMatches date_str 6 24) = []) := by
  intro date_str mtn_data val_data d h
  refine ⟨?_, extract_hourly_period_eq_none_iff _ _ _ _⟩
  unfold process_day at h
  cases hf : mtn_data.daily.find? (fun e => e.time = date_str) with
  | none => rw [hf] at h; exact absurd h (by simp)
  | some de =>
    rw [hf] at h
    simp only [Option.some.injEq] at h
    subst h
    rfl

/-- Counterexample for C3: `hour3Forecast` has hourly data for 2026-03-01
(at hour 3), yet the full-day `[6,24)` summary is absent and the default 50
is used — the claim's "exactly when no hourly data exists for the date at
all" fails. -/
theorem avg_cloud_default_despite_hourly_data :
    hour3Forecast.hourly.filter (fun e => pyStartsWith e.time "2026-03-01") ≠ []
    ∧ (process_day "2026-03-01" hour3Forecast hour3Forecast).map
        (fun d => d.avg_cloud) = some 50
    ∧ extract_hourly_period hour3Forecast.hourly "2026-03-01" 6 24 = none := by decide

/-- Witness for C3 (amended): on `wForecast` (no hourly rows at all) the
produced record's `avg_cloud` comes from the default branch. -/
theorem avg_cloud_full_day_default_witness :
    wDay.avg_cloud = ((extract_hourly_period wForecast.hourly "2026-03-01" 6 24).map
        (fun p => p.cloud_avg)).getD 50
    ∧ (extract_hourly_period wForecast.hourly "2026-03-01" 6 24 = none ↔
        wForecast.hourly.filter (hourlyMatches "2026-03-01" 6 24) = []) :=
  avg_cloud_full_day_default "2026-03-01" wForecast wForecast wDay (by decide)

end SkiWeather
